import Mathlib

/-!
Verification development for the wxDC coordinate-transform and clipping
pipeline described by `interface/wx/dc.h`.

The header declares the public API (LogicalToDeviceX/Y and the Rel
variants, DeviceToLogicalX/Y, SetMapMode, SetUserScale,
SetAxisOrientation, SetDeviceOrigin, CalcBoundingBox, ResetBoundingBox,
MinX/MaxX/MinY/MaxY, SetClippingRegion, SetDeviceClippingRegion,
DestroyClippingRegion, wxDCClipper) but contains no executable bodies,
so the state and the operations below are modelled from the
specification's data model and component design, keeping the header's
names.  Coordinates (wxCoord) are integers; scale factors are exact
rationals; the rounding policy is the spec's round-half-away-from-zero.
-/

set_option autoImplicit false

/-- Modelled from the spec: the mapping-mode enum {Text, Twips, Points,
Metric, LoMetric} of `SetMapMode` (the header body for `wxDC::SetMapMode`
is absent from the sources). -/
inductive MapMode where
  | Text
  | Twips
  | Points
  | Metric
  | LoMetric
deriving DecidableEq, Repr

/-- Modelled from the spec: the per-mode unit scale factor from logical to
device units, given the chosen device-units-per-millimetre constant.
Twips = 1/1440 in = 127/7200 mm, Points = 1/72 in = 127/360 mm,
Metric = 1 mm, LoMetric = 0.1 mm, Text = 1 device pixel. -/
def MapMode.unitScale : MapMode → ℚ → ℚ
  | .Text, _ => 1
  | .Twips, mmToDev => (127 / 7200) * mmToDev
  | .Points, mmToDev => (127 / 360) * mmToDev
  | .Metric, mmToDev => mmToDev
  | .LoMetric, mmToDev => mmToDev / 10

/-- Raw integer mapping-mode values as passed to `SetMapMode(int mode)`,
decoded to the enum; values outside the table are invalid. -/
def decodeMapMode : Int → Option MapMode
  | 1 => some MapMode.Text
  | 2 => some MapMode.Twips
  | 3 => some MapMode.Points
  | 4 => some MapMode.Metric
  | 5 => some MapMode.LoMetric
  | _ => none

/-- The cumulative drawing bounding box tracked by `CalcBoundingBox`,
in logical coordinates. -/
structure BoundingBox where
  minX : Int
  maxX : Int
  minY : Int
  maxY : Int
deriving DecidableEq, Repr

/-- Modelled from the spec: the local, recoverable error conditions of the
transform and clip components. -/
inductive DCError where
  | InvalidArgument
  | NoBoundingBox
  | EmptyClip
deriving DecidableEq, Repr

/-- Modelled from the spec: the CoordinateTransform state of a wxDC —
mapping mode, user scale, axis orientation, device origin, the
device-units-per-millimetre constants of the underlying device, and the
nullable bounding box (the wxDC implementation itself is absent from the
sources; only its interface documentation is). -/
structure CoordinateTransform where
  mappingMode : MapMode
  userScaleX : ℚ
  userScaleY : ℚ
  xLeftRight : Bool
  yBottomUp : Bool
  deviceOriginX : Int
  deviceOriginY : Int
  mmToDevX : ℚ
  mmToDevY : ℚ
  boundingBox : Option BoundingBox
deriving DecidableEq, Repr

/-- Modelled from the spec and the header doc of `SetAxisOrientation`:
the freshly created device context has x axis left to right and y axis
top down, unit user scale, text mapping mode, origin at zero and no
bounding box yet. -/
def defaultTransform (mmToDevX mmToDevY : ℚ) : CoordinateTransform :=
  { mappingMode := MapMode.Text
    userScaleX := 1
    userScaleY := 1
    xLeftRight := true
    yBottomUp := false
    deviceOriginX := 0
    deviceOriginY := 0
    mmToDevX := mmToDevX
    mmToDevY := mmToDevY
    boundingBox := none }

/-- The fixed rounding policy for device/logical conversions:
round half away from zero. -/
def roundHalfAwayFromZero (q : ℚ) : Int :=
  if 0 ≤ q then ⌊q + 1 / 2⌋ else ⌈q - 1 / 2⌉

/-- Sign factor of the x axis: `xLeftRight = true` is the natural
left-to-right orientation (no flip). -/
def axisSignX (st : CoordinateTransform) : ℚ :=
  if st.xLeftRight then 1 else -1

/-- Sign factor of the y axis: `yBottomUp = false` is the natural
top-down device convention (no flip); `true` inverts it. -/
def axisSignY (st : CoordinateTransform) : ℚ :=
  if st.yBottomUp then -1 else 1

/-- Combined unsigned x scale: mapping-mode unit scale times user scale
(the user scale itself may be negative). -/
def scaleX (st : CoordinateTransform) : ℚ :=
  st.mappingMode.unitScale st.mmToDevX * st.userScaleX

/-- Combined unsigned y scale: mapping-mode unit scale times user scale. -/
def scaleY (st : CoordinateTransform) : ℚ :=
  st.mappingMode.unitScale st.mmToDevY * st.userScaleY

/-- Modelled from the spec: `LogicalToDeviceX` applies mapping-mode scale
× user scale × axis sign, rounds, then adds the device origin. -/
def logicalToDeviceX (st : CoordinateTransform) (x : Int) : Int :=
  roundHalfAwayFromZero ((x : ℚ) * scaleX st * axisSignX st) + st.deviceOriginX

/-- Modelled from the spec: `LogicalToDeviceY`. -/
def logicalToDeviceY (st : CoordinateTransform) (y : Int) : Int :=
  roundHalfAwayFromZero ((y : ℚ) * scaleY st * axisSignY st) + st.deviceOriginY

/-- Modelled from the spec: `DeviceToLogicalX`, the inverse using the same
scale factors — subtract the origin, divide by the signed scale, round. -/
def deviceToLogicalX (st : CoordinateTransform) (x : Int) : Int :=
  roundHalfAwayFromZero (((x : ℚ) - (st.deviceOriginX : ℚ)) / (scaleX st * axisSignX st))

/-- Modelled from the spec: `DeviceToLogicalY`. -/
def deviceToLogicalY (st : CoordinateTransform) (y : Int) : Int :=
  roundHalfAwayFromZero (((y : ℚ) - (st.deviceOriginY : ℚ)) / (scaleY st * axisSignY st))

/-- Modelled from the spec: `LogicalToDeviceXRel` converts an extent —
same scale but no axis-orientation sign flip and no origin offset. -/
def logicalToDeviceXRel (st : CoordinateTransform) (dx : Int) : Int :=
  roundHalfAwayFromZero ((dx : ℚ) * scaleX st)

/-- Modelled from the spec: `LogicalToDeviceYRel`. -/
def logicalToDeviceYRel (st : CoordinateTransform) (dy : Int) : Int :=
  roundHalfAwayFromZero ((dy : ℚ) * scaleY st)

/-- Modelled from the spec: `DeviceToLogicalXRel`. -/
def deviceToLogicalXRel (st : CoordinateTransform) (dx : Int) : Int :=
  roundHalfAwayFromZero ((dx : ℚ) / scaleX st)

/-- Modelled from the spec: `DeviceToLogicalYRel`. -/
def deviceToLogicalYRel (st : CoordinateTransform) (dy : Int) : Int :=
  roundHalfAwayFromZero ((dy : ℚ) / scaleY st)

/-- Modelled from the spec: `SetUserScale` accepts positive or negative
multipliers; the sign composes multiplicatively with the orientation
flags through `scaleX`/`scaleY` above. -/
def setUserScale (st : CoordinateTransform) (xScale yScale : ℚ) : CoordinateTransform :=
  { st with userScaleX := xScale, userScaleY := yScale }

/-- Modelled from the spec: `SetAxisOrientation` sets the sign flags
only; it does not alter scale. -/
def setAxisOrientation (st : CoordinateTransform) (xLeftRight yBottomUp : Bool) : CoordinateTransform :=
  { st with xLeftRight := xLeftRight, yBottomUp := yBottomUp }

/-- Modelled from the spec: `SetDeviceOrigin` sets the offset applied
after scaling. -/
def setDeviceOrigin (st : CoordinateTransform) (x y : Int) : CoordinateTransform :=
  { st with deviceOriginX := x, deviceOriginY := y }

/-- Modelled from the spec: `SetMapMode` selects the unit-scale table
entry; an invalid enum value leaves the transform at its last valid mode
and reports `InvalidArgument` to the caller. -/
def setMapMode (st : CoordinateTransform) (mode : Int) : CoordinateTransform × Option DCError :=
  match decodeMapMode mode with
  | some mm => ({ st with mappingMode := mm }, none)
  | none => (st, some DCError.InvalidArgument)

/-- Modelled from the spec: `CalcBoundingBox` expands the bounding box to
include the given logical point; the first call initializes
min = max = point. -/
def calcBoundingBox (st : CoordinateTransform) (x y : Int) : CoordinateTransform :=
  { st with
    boundingBox :=
      some (match st.boundingBox with
        | none => { minX := x, maxX := x, minY := y, maxY := y }
        | some b =>
          { minX := min b.minX x
            maxX := max b.maxX x
            minY := min b.minY y
            maxY := max b.maxY y }) }

/-- Modelled from the spec: `ResetBoundingBox` clears the bounding box to
empty. -/
def resetBoundingBox (st : CoordinateTransform) : CoordinateTransform :=
  { st with boundingBox := none }

/-- Modelled from the spec: `MinX` fails with `NoBoundingBox` when
nothing was ever calculated. -/
def minX (st : CoordinateTransform) : Except DCError Int :=
  match st.boundingBox with
  | none => Except.error DCError.NoBoundingBox
  | some b => Except.ok b.minX

/-- Modelled from the spec: `MaxX`. -/
def maxX (st : CoordinateTransform) : Except DCError Int :=
  match st.boundingBox with
  | none => Except.error DCError.NoBoundingBox
  | some b => Except.ok b.maxX

/-- Modelled from the spec: `MinY`. -/
def minY (st : CoordinateTransform) : Except DCError Int :=
  match st.boundingBox with
  | none => Except.error DCError.NoBoundingBox
  | some b => Except.ok b.minY

/-- Modelled from the spec: `MaxY`. -/
def maxY (st : CoordinateTransform) : Except DCError Int :=
  match st.boundingBox with
  | none => Except.error DCError.NoBoundingBox
  | some b => Except.ok b.maxY

/-- An axis-aligned rectangle in device coordinates, as corner
coordinates. -/
structure DeviceRect where
  left : Int
  top : Int
  right : Int
  bottom : Int
deriving DecidableEq, Repr

/-- Rectangle intersection in device coordinates (the backend
region-intersection primitive, restricted to rectangles). -/
def DeviceRect.inter (a b : DeviceRect) : DeviceRect :=
  { left := max a.left b.left
    top := max a.top b.top
    right := min a.right b.right
    bottom := min a.bottom b.bottom }

/-- A clip region: `none` is the unbounded plane (unclipped). -/
abbrev ClipRegion := Option DeviceRect

/-- Region intersection where `none` (unbounded) is the identity. -/
def regionInter : ClipRegion → ClipRegion → ClipRegion
  | none, r => r
  | some a, none => some a
  | some a, some b => some (a.inter b)

/-- Modelled from the spec: the ClipRegionStack — each entry stores the
effective region at the time of its push (the intersection, not the raw
pushed region), so the top is the current effective region and popping
restores the prior one; the empty stack is unclipped. -/
structure ClipRegionStack where
  entries : List ClipRegion
deriving DecidableEq, Repr

/-- The current effective clipping region: the top entry, or unbounded
when the stack is empty. -/
def ClipRegionStack.effectiveRegion (s : ClipRegionStack) : ClipRegion :=
  s.entries.headD none

/-- Modelled from the spec: pushing a region stores the intersection of
the new region with the current effective region as the new top. -/
def ClipRegionStack.push (s : ClipRegionStack) (r : ClipRegion) : ClipRegionStack :=
  { entries := regionInter s.effectiveRegion r :: s.entries }

/-- Popping removes the top entry, restoring the prior effective
region. -/
def ClipRegionStack.pop (s : ClipRegionStack) : ClipRegionStack :=
  { entries := s.entries.tail }

/-- The combined device-context state the claims range over. -/
structure DCState where
  transform : CoordinateTransform
  clipStack : ClipRegionStack
deriving DecidableEq, Repr

/-- Modelled from the spec: a logical rectangle (x, y, w, h) converted to
device coordinates — corners via the point conversions, extents via the
Rel conversions. -/
def convertRectToDevice (st : CoordinateTransform) (x y w h : Int) : DeviceRect :=
  { left := logicalToDeviceX st x
    top := logicalToDeviceY st y
    right := logicalToDeviceX st x + logicalToDeviceXRel st w
    bottom := logicalToDeviceY st y + logicalToDeviceYRel st h }

/-- Modelled from the spec: `SetClippingRegion(x, y, w, h)` converts the
rectangle to device coordinates via the CoordinateTransform and pushes
its intersection with the current effective region. -/
def setClippingRegion (dc : DCState) (x y w h : Int) : DCState :=
  { dc with clipStack := dc.clipStack.push (some (convertRectToDevice dc.transform x y w h)) }

/-- Modelled from the spec: `SetDeviceClippingRegion` pushes a region
already given in device coordinates, bypassing the transform. -/
def setDeviceClippingRegion (dc : DCState) (r : ClipRegion) : DCState :=
  { dc with clipStack := dc.clipStack.push r }

/-- Modelled from the spec: `DestroyClippingRegion` clears the entire
stack; the clip becomes unbounded. -/
def destroyClippingRegion (dc : DCState) : DCState :=
  { dc with clipStack := { entries := [] } }

/-- Removing the top clip entry of a device context (the scoped guard's
release action). -/
def popClippingRegion (dc : DCState) : DCState :=
  { dc with clipStack := dc.clipStack.pop }

/-- Modelled from the spec: `wxDCClipper` construction pushes a clip
rectangle onto the stack. -/
def wxDCClipperConstruct (dc : DCState) (x y w h : Int) : DCState :=
  setClippingRegion dc x y w h

/-- Modelled from the spec: `wxDCClipper` destruction, run exactly once
on every exit path of its scope, pops the corresponding entry. -/
def wxDCClipperDestruct (dc : DCState) : DCState :=
  popClippingRegion dc

/-! ## Rounding facts -/

theorem abs_roundHalfAwayFromZero_sub_le (q : ℚ) :
    |(roundHalfAwayFromZero q : ℚ) - q| ≤ 1 / 2 := by
  unfold roundHalfAwayFromZero
  split
  · rw [abs_le]
    refine ⟨?_, ?_⟩
    · have h := Int.lt_floor_add_one (q + 1 / 2)
      linarith
    · have h := Int.floor_le (q + 1 / 2)
      linarith
  · rw [abs_le]
    refine ⟨?_, ?_⟩
    · have h := Int.le_ceil (q - 1 / 2)
      linarith
    · have h := Int.ceil_lt_add_one (q - 1 / 2)
      linarith

theorem abs_roundtrip_le (s : ℚ) (hs : 1 ≤ |s|) (x : Int) :
    |roundHalfAwayFromZero ((roundHalfAwayFromZero ((x : ℚ) * s) : ℚ) / s) - x| ≤ 1 := by
  set r : ℚ := (roundHalfAwayFromZero ((x : ℚ) * s) : ℚ) with hr
  have h1 : |r - (x : ℚ) * s| ≤ 1 / 2 := abs_roundHalfAwayFromZero_sub_le _
  have hs0 : s ≠ 0 := by
    intro h
    rw [h, abs_zero] at hs
    linarith
  have h2 : |r / s - (x : ℚ)| ≤ 1 / 2 := by
    have heq : r / s - (x : ℚ) = (r - (x : ℚ) * s) / s := by
      field_simp
      ring
    rw [heq, abs_div]
    have hd := div_le_self (abs_nonneg (r - (x : ℚ) * s)) hs
    linarith
  have h3 : |(roundHalfAwayFromZero (r / s) : ℚ) - r / s| ≤ 1 / 2 :=
    abs_roundHalfAwayFromZero_sub_le _
  have h4 : |(roundHalfAwayFromZero (r / s) : ℚ) - (x : ℚ)| ≤ 1 := by
    have hsplit : (roundHalfAwayFromZero (r / s) : ℚ) - (x : ℚ)
        = ((roundHalfAwayFromZero (r / s) : ℚ) - r / s) + (r / s - (x : ℚ)) := by
      ring
    rw [hsplit]
    have habs := abs_add ((roundHalfAwayFromZero (r / s) : ℚ) - r / s) (r / s - (x : ℚ))
    linarith
  have h5 : |((roundHalfAwayFromZero (r / s) - x : ℤ) : ℚ)| ≤ 1 := by
    push_cast
    exact h4
  exact_mod_cast h5

/-! ## Claim theorems -/

/-- C1 (amended): for every transform state whose combined per-axis scale
magnitude is at least one, the device/logical round trip returns the
original point within one unit under the fixed round-half-away-from-zero
policy.  (As stated over all transform states the claim fails: a scale of
magnitude below one loses more than one unit, see the counterexample.) -/
theorem roundtrip_within_one_unit (st : CoordinateTransform)
    (hx : 1 ≤ |scaleX st|) (hy : 1 ≤ |scaleY st|) (x y : Int) :
    |deviceToLogicalX st (logicalToDeviceX st x) - x| ≤ 1 ∧
    |deviceToLogicalY st (logicalToDeviceY st y) - y| ≤ 1 := by
  have hsgnX : |axisSignX st| = 1 := by
    unfold axisSignX
    split <;> simp
  have hsgnY : |axisSignY st| = 1 := by
    unfold axisSignY
    split <;> simp
  constructor
  · have hs : 1 ≤ |scaleX st * axisSignX st| := by
      rw [abs_mul, hsgnX, mul_one]
      exact hx
    have key := abs_roundtrip_le (scaleX st * axisSignX st) hs x
    have harg : deviceToLogicalX st (logicalToDeviceX st x)
        = roundHalfAwayFromZero
            ((roundHalfAwayFromZero ((x : ℚ) * (scaleX st * axisSignX st)) : ℚ)
              / (scaleX st * axisSignX st)) := by
      unfold deviceToLogicalX logicalToDeviceX
      rw [mul_assoc]
      congr 1
      push_cast
      ring
    rw [harg]
    exact key
  · have hs : 1 ≤ |scaleY st * axisSignY st| := by
      rw [abs_mul, hsgnY, mul_one]
      exact hy
    have key := abs_roundtrip_le (scaleY st * axisSignY st) hs y
    have harg : deviceToLogicalY st (logicalToDeviceY st y)
        = roundHalfAwayFromZero
            ((roundHalfAwayFromZero ((y : ℚ) * (scaleY st * axisSignY st)) : ℚ)
              / (scaleY st * axisSignY st)) := by
      unfold deviceToLogicalY logicalToDeviceY
      rw [mul_assoc]
      congr 1
      push_cast
      ring
    rw [harg]
    exact key

/-- Witness for C1: at the default transform (unit scale) the round trip
of logical 5 and 7 is within one unit. -/
theorem roundtrip_within_one_unit_witness :
    (1 ≤ |scaleX (defaultTransform 1 1)|) ∧ (1 ≤ |scaleY (defaultTransform 1 1)|) ∧
    |deviceToLogicalX (defaultTransform 1 1) (logicalToDeviceX (defaultTransform 1 1) 5) - 5| ≤ 1 ∧
    |deviceToLogicalY (defaultTransform 1 1) (logicalToDeviceY (defaultTransform 1 1) 7) - 7| ≤ 1 :=
  ⟨by simp [scaleX, defaultTransform, MapMode.unitScale],
    by simp [scaleY, defaultTransform, MapMode.unitScale],
    (roundtrip_within_one_unit (defaultTransform 1 1)
      (by simp [scaleX, defaultTransform, MapMode.unitScale])
      (by simp [scaleY, defaultTransform, MapMode.unitScale]) 5 7).1,
    (roundtrip_within_one_unit (defaultTransform 1 1)
      (by simp [scaleX, defaultTransform, MapMode.unitScale])
      (by simp [scaleY, defaultTransform, MapMode.unitScale]) 5 7).2⟩

/-- A transform with user scale 1/100 on x: one hundred logical units per
device unit. -/
def lowScaleTransform : CoordinateTransform :=
  setUserScale (defaultTransform 1 1) (1 / 100) 1

/-- Counterexample to C1 as stated: with user scale 1/100 the round trip
of logical x = 49 returns 0, an error of 49 units, far more than one unit
of rounding error. -/
theorem roundtrip_not_within_one_unit :
    ¬ (|deviceToLogicalX lowScaleTransform (logicalToDeviceX lowScaleTransform 49) - 49| ≤ 1) := by
  have h1 : logicalToDeviceX lowScaleTransform 49 = 0 := by
    norm_num [logicalToDeviceX, lowScaleTransform, setUserScale, defaultTransform, scaleX,
      axisSignX, MapMode.unitScale, roundHalfAwayFromZero]
  have h2 : deviceToLogicalX lowScaleTransform 0 = 0 := by
    norm_num [deviceToLogicalX, lowScaleTransform, setUserScale, defaultTransform, scaleX,
      axisSignX, MapMode.unitScale, roundHalfAwayFromZero]
  rw [h1, h2]
  norm_num

/-- C2: starting from the unclipped state, setting clip rectangle R1 and
then R2 makes the effective clip the intersection of the two
device-converted rectangles — SetClippingRegion pushes the intersection
with the current effective region, not the raw region — and popping the
top entry restores the effective clip to exactly (device-converted) R1. -/
theorem clip_push_push_pop (dc : DCState) (x1 y1 w1 h1 x2 y2 w2 h2 : Int) :
    (setClippingRegion (setClippingRegion (destroyClippingRegion dc) x1 y1 w1 h1)
        x2 y2 w2 h2).clipStack.effectiveRegion
      = some ((convertRectToDevice dc.transform x1 y1 w1 h1).inter
          (convertRectToDevice dc.transform x2 y2 w2 h2)) ∧
    (popClippingRegion (setClippingRegion (setClippingRegion (destroyClippingRegion dc)
        x1 y1 w1 h1) x2 y2 w2 h2)).clipStack.effectiveRegion
      = some (convertRectToDevice dc.transform x1 y1 w1 h1) := by
  constructor
  · simp [setClippingRegion, destroyClippingRegion, ClipRegionStack.push,
      ClipRegionStack.effectiveRegion, regionInter]
  · simp [setClippingRegion, destroyClippingRegion, popClippingRegion, ClipRegionStack.push,
      ClipRegionStack.pop, ClipRegionStack.effectiveRegion, regionInter]

/-- C3: the Rel (extent) conversions are unchanged by any
SetAxisOrientation call and by any SetDeviceOrigin call, in both
directions and on both axes. -/
theorem rel_conversions_ignore_orientation_and_origin (st : CoordinateTransform)
    (xlr ybu : Bool) (ox oy w : Int) :
    logicalToDeviceXRel (setAxisOrientation st xlr ybu) w = logicalToDeviceXRel st w ∧
    logicalToDeviceYRel (setAxisOrientation st xlr ybu) w = logicalToDeviceYRel st w ∧
    deviceToLogicalXRel (setAxisOrientation st xlr ybu) w = deviceToLogicalXRel st w ∧
    deviceToLogicalYRel (setAxisOrientation st xlr ybu) w = deviceToLogicalYRel st w ∧
    logicalToDeviceXRel (setDeviceOrigin st ox oy) w = logicalToDeviceXRel st w ∧
    logicalToDeviceYRel (setDeviceOrigin st ox oy) w = logicalToDeviceYRel st w ∧
    deviceToLogicalXRel (setDeviceOrigin st ox oy) w = deviceToLogicalXRel st w ∧
    deviceToLogicalYRel (setDeviceOrigin st ox oy) w = deviceToLogicalYRel st w :=
  ⟨rfl, rfl, rfl, rfl, rfl, rfl, rfl, rfl⟩

/-- C4: with user scale (-1, 1) and axis orientation (true, true), the
device x for logical x = 5 is the mirror (negation about the zero origin)
of the result under the same orientation with unit scale, and coincides
with the result of an unscaled explicit x-axis flip: the scale sign
composes multiplicatively with the orientation flags rather than
overriding them. -/
theorem negative_scale_composes_with_orientation :
    logicalToDeviceX (setAxisOrientation (setUserScale (defaultTransform 1 1) (-1) 1) true true) 5
      = -(logicalToDeviceX (setAxisOrientation (setUserScale (defaultTransform 1 1) 1 1) true true) 5) ∧
    logicalToDeviceX (setAxisOrientation (setUserScale (defaultTransform 1 1) (-1) 1) true true) 5
      = logicalToDeviceX (setAxisOrientation (setUserScale (defaultTransform 1 1) 1 1) false true) 5 := by
  have hA : logicalToDeviceX
      (setAxisOrientation (setUserScale (defaultTransform 1 1) (-1) 1) true true) 5 = -5 := by
    norm_num [logicalToDeviceX, setAxisOrientation, setUserScale, defaultTransform, scaleX,
      axisSignX, MapMode.unitScale, roundHalfAwayFromZero, Int.ceil_neg]
  have hB : logicalToDeviceX
      (setAxisOrientation (setUserScale (defaultTransform 1 1) 1 1) true true) 5 = 5 := by
    norm_num [logicalToDeviceX, setAxisOrientation, setUserScale, defaultTransform, scaleX,
      axisSignX, MapMode.unitScale, roundHalfAwayFromZero]
  have hC : logicalToDeviceX
      (setAxisOrientation (setUserScale (defaultTransform 1 1) 1 1) false true) 5 = -5 := by
    norm_num [logicalToDeviceX, setAxisOrientation, setUserScale, defaultTransform, scaleX,
      axisSignX, MapMode.unitScale, roundHalfAwayFromZero, Int.ceil_neg]
  rw [hA, hB, hC]
  constructor <;> rfl

/-- C5: the scoped clip guard restores the whole device-context state on
scope exit — popping the entry pushed at construction yields exactly the
state from immediately before construction, entries and effective region
included. -/
theorem clipper_scope_restores (dc : DCState) (x y w h : Int) :
    wxDCClipperDestruct (wxDCClipperConstruct dc x y w h) = dc := by
  cases dc with
  | mk tr cs =>
    cases cs with
    | mk entries =>
      simp [wxDCClipperDestruct, wxDCClipperConstruct, setClippingRegion, popClippingRegion,
        ClipRegionStack.push, ClipRegionStack.pop]

/-- C6: after ResetBoundingBox every bounding-box query fails with
NoBoundingBox; likewise on a fresh transform; and a subsequent
CalcBoundingBox makes the queries succeed again. -/
theorem bounding_box_queries_fail_after_reset (st : CoordinateTransform)
    (mmx mmy : ℚ) (x y : Int) :
    minX (resetBoundingBox st) = Except.error DCError.NoBoundingBox ∧
    maxX (resetBoundingBox st) = Except.error DCError.NoBoundingBox ∧
    minY (resetBoundingBox st) = Except.error DCError.NoBoundingBox ∧
    maxY (resetBoundingBox st) = Except.error DCError.NoBoundingBox ∧
    minX (defaultTransform mmx mmy) = Except.error DCError.NoBoundingBox ∧
    maxX (defaultTransform mmx mmy) = Except.error DCError.NoBoundingBox ∧
    minY (defaultTransform mmx mmy) = Except.error DCError.NoBoundingBox ∧
    maxY (defaultTransform mmx mmy) = Except.error DCError.NoBoundingBox ∧
    minX (calcBoundingBox (resetBoundingBox st) x y) = Except.ok x ∧
    maxY (calcBoundingBox (resetBoundingBox st) x y) = Except.ok y :=
  ⟨rfl, rfl, rfl, rfl, rfl, rfl, rfl, rfl, rfl, rfl⟩

/-- C7: SetMapMode on any invalid raw mode value reports InvalidArgument
and leaves the transform unchanged, so it stays at the last valid
mapping mode. -/
theorem setMapMode_invalid_reports (st : CoordinateTransform) (mode : Int)
    (h : decodeMapMode mode = none) :
    setMapMode st mode = (st, some DCError.InvalidArgument) := by
  unfold setMapMode
  rw [h]

/-- Witness for C7: raw mode 0 is invalid and is rejected, leaving the
default transform unchanged. -/
theorem setMapMode_invalid_reports_witness :
    decodeMapMode 0 = none ∧
    setMapMode (defaultTransform 1 1) 0 = (defaultTransform 1 1, some DCError.InvalidArgument) :=
  ⟨rfl, setMapMode_invalid_reports (defaultTransform 1 1) 0 rfl⟩

/-- C8: CalcBoundingBox is idempotent for repeated identical input, and
the first call after a reset (or on a fresh transform) initializes
min = max = the given point. -/
theorem calcBoundingBox_idempotent (st : CoordinateTransform) (mmx mmy : ℚ) (x y : Int) :
    calcBoundingBox (calcBoundingBox st x y) x y = calcBoundingBox st x y ∧
    (calcBoundingBox (resetBoundingBox st) x y).boundingBox
      = some { minX := x, maxX := x, minY := y, maxY := y } ∧
    (calcBoundingBox (defaultTransform mmx mmy) x y).boundingBox
      = some { minX := x, maxX := x, minY := y, maxY := y } := by
  refine ⟨?_, rfl, rfl⟩
  cases st with
  | mk mm usx usy xlr ybu dox doy mx my bb =>
    cases bb with
    | none => simp [calcBoundingBox]
    | some b =>
      simp [calcBoundingBox, min_assoc, max_assoc]

/-- C9: after DestroyClippingRegion, a SetClippingRegion (or a device
region push) yields an effective clip exactly equal to the new region:
intersecting with the unbounded plane is the identity. -/
theorem destroy_then_set_is_exact (dc : DCState) (x y w h : Int) (r : ClipRegion) :
    (setClippingRegion (destroyClippingRegion dc) x y w h).clipStack.effectiveRegion
      = some (convertRectToDevice dc.transform x y w h) ∧
    (setDeviceClippingRegion (destroyClippingRegion dc) r).clipStack.effectiveRegion = r := by
  constructor
  · simp [setClippingRegion, destroyClippingRegion, ClipRegionStack.push,
      ClipRegionStack.effectiveRegion, regionInter]
  · simp [setDeviceClippingRegion, destroyClippingRegion, ClipRegionStack.push,
      ClipRegionStack.effectiveRegion, regionInter]

/-- C10: a fresh device context has x axis left to right and y axis top
down (xLeftRight = true, yBottomUp = false), so conversions before any
SetAxisOrientation call apply no sign flip on either axis. -/
theorem default_axis_orientation (mmx mmy : ℚ) (x y : Int) :
    (defaultTransform mmx mmy).xLeftRight = true ∧
    (defaultTransform mmx mmy).yBottomUp = false ∧
    axisSignX (defaultTransform mmx mmy) = 1 ∧
    axisSignY (defaultTransform mmx mmy) = 1 ∧
    logicalToDeviceX (defaultTransform mmx mmy) x
      = roundHalfAwayFromZero ((x : ℚ) * scaleX (defaultTransform mmx mmy)) ∧
    logicalToDeviceY (defaultTransform mmx mmy) y
      = roundHalfAwayFromZero ((y : ℚ) * scaleY (defaultTransform mmx mmy)) := by
  refine ⟨rfl, rfl, rfl, rfl, ?_, ?_⟩
  · simp [logicalToDeviceX, axisSignX, defaultTransform]
  · simp [logicalToDeviceY, axisSignY, defaultTransform]
